import Mathlib

/-!
Verification of the sorg static-site build tool (cmd/sorg-build/main.go).

The Go source is shallowly embedded: pure functions become Lean functions,
the stateful build pipeline becomes explicit state passing, machine floats
used only for distances become rationals, and fallible Go functions
(returning `error`) become `Except String`.  External collaborators (the
YAML decoder, the Markdown renderer, the Ace template engine, the gcss
compiler, the filesystem and the database) are abstracted as function
parameters, since the repository treats them as opaque capabilities.
-/

deriving instance DecidableEq for Except

namespace Sorg

/-- Go `unicode.IsSpace`: the Unicode white-space code points recognised by
`strings.TrimSpace`. -/
def goIsSpace (c : Char) : Bool :=
  c.toNat = 9 || c.toNat = 10 || c.toNat = 11 || c.toNat = 12 || c.toNat = 13 ||
  c.toNat = 32 || c.toNat = 0x85 || c.toNat = 0xA0 ||
  c.toNat = 0x1680 || (0x2000 ≤ c.toNat && c.toNat ≤ 0x200A) ||
  c.toNat = 0x2028 || c.toNat = 0x2029 || c.toNat = 0x202F ||
  c.toNat = 0x205F || c.toNat = 0x3000

/-- Go `strings.TrimSpace`: drop white space from both ends of a string. -/
def trimSpace (s : String) : String :=
  String.mk (((s.toList.dropWhile goIsSpace).reverse.dropWhile goIsSpace).reverse)

/-- The splitting scanner of Go `regexp.MustCompile("(?m)^---").Split(content, 3)`
(main.go line 600).  `k` is the number of splits still allowed (2 at the top
level, because the limit 3 caps the output at 3 parts), `atStart` records
whether the current position is at the start of a line (position 0 or right
after a newline, where the multiline anchor `^` matches), and `acc` holds the
characters of the current part in reverse.  A match of the pattern consumes
the three dashes, and scanning resumes after them, exactly as Go's regexp
engine finds leftmost, non-overlapping matches. -/
def fmSplitAux : Nat → Bool → List Char → List Char → List (List Char)
  | _, _, acc, [] => [acc.reverse]
  | Nat.succ k, true, acc, '-' :: '-' :: '-' :: rest =>
      acc.reverse :: fmSplitAux k false [] rest
  | k, _, acc, c :: rest => fmSplitAux k (c == '\n') (c :: acc) rest

/-- The parts produced by `regexp.MustCompile("(?m)^---").Split(content, 3)`. -/
def splitParts (content : String) : List String :=
  (fmSplitAux 2 true [] content.toList).map String.mk

/-- `errBadFrontmatter` (main.go line 597). -/
def errBadFrontmatter : String := "Unable to split YAML frontmatter"

/-- `splitFrontmatter` (main.go lines 599-611): returns the pair
(frontmatter, body) or the bad-frontmatter error. -/
def splitFrontmatter (content : String) : Except String (String × String) :=
  let parts := splitParts content
  if parts.length > 1 ∧ parts.getD 0 "" ≠ "" then
    .error errBadFrontmatter
  else if parts.length = 2 then
    .ok ("", trimSpace (parts.getD 1 ""))
  else if parts.length = 3 then
    .ok (trimSpace (parts.getD 1 ""), trimSpace (parts.getD 2 ""))
  else
    .ok ("", trimSpace (parts.getD 0 ""))

/-- Whether the scanner, started with line-start flag `atStart`, would find an
occurrence of `---` at the start of a line (a match of the multiline pattern
`(?m)^---`). -/
def hasSplitPoint : Bool → List Char → Bool
  | true, '-' :: '-' :: '-' :: _ => true
  | _, c :: rest => hasSplitPoint (c == '\n') rest
  | _, [] => false

/-- Reassemble the parts of a split, re-inserting the three dashes consumed
at each split point. -/
def joinCharParts : List (List Char) → List Char
  | [] => []
  | [p] => p
  | p :: q :: ps => p ++ '-' :: '-' :: '-' :: joinCharParts (q :: ps)

/-- Split a string into its lines (separator `\n`), used to state which lines
of a document are frontmatter separators. -/
def linesAux : List Char → List Char → List (List Char)
  | acc, [] => [acc.reverse]
  | acc, '\n' :: rest => acc.reverse :: linesAux [] rest
  | acc, c :: rest => linesAux (c :: acc) rest

/-- The lines of a string. -/
def splitLines (s : String) : List String :=
  (linesAux [] s.toList).map String.mk

/-- Number of lines of a document that consist of exactly `---`.  This is the
spec's notion of a frontmatter separator ("lines consisting of exactly a
horizontal-rule marker"), stated here so that claims about it can be compared
with what `splitFrontmatter` actually does. -/
def exactSeparatorCount (s : String) : Nat :=
  ((splitLines s).filter (fun l => l == "---")).length

/-- Reassemble a list of string parts, re-inserting `---` between them. -/
def joinParts (ps : List String) : String :=
  String.mk (joinCharParts (ps.map String.toList))

/-- `Article` (main.go lines 42-72).  Timestamps are abstracted as integers;
a Go `*time.Time` becomes `Option Int` (nil becomes `none`).  Fields not
decoded from YAML (`Content`, `TOC`) start at their zero values, as Go's
`yaml.Unmarshal` leaves them. -/
structure Article where
  attributions : String := ""
  content : String := ""
  hnLink : String := ""
  hook : String := ""
  image : String := ""
  publishedAt : Option Int := none
  title : String := ""
  toc : String := ""
deriving DecidableEq

/-- `Fragment` (main.go lines 87-103). -/
structure Fragment where
  content : String := ""
  image : String := ""
  publishedAt : Option Int := none
  title : String := ""
deriving DecidableEq

/-- `Conf` (main.go lines 74-85). -/
structure Conf where
  blackSwanDatabaseURL : String := ""
  googleAnalyticsID : String := ""
  verbose : Bool := false
deriving DecidableEq

/-- `Run` (main.go lines 105-115).  Float64 distances become rationals;
`MovingTime` is a `time.Duration`, an integer count of nanoseconds. -/
structure Run where
  distance : ℚ
  elevationGain : ℚ
  locationCity : String
  movingTime : Int
  occurredAt : Option Int
deriving DecidableEq

/-- Modelled from the spec: `sorg.ArticlesDir`, the articles source root, is
a constant of the excluded directory-setup collaborator; only its use as a
path to concatenate matters here. -/
def articlesDir : String := "./content/articles/"

/-- Modelled from the spec: `sorg.FragmentsDir`, the fragments source root,
a constant of the excluded directory-setup collaborator. -/
def fragmentsDir : String := "./content/fragments/"

/-- The required-field checks of `compileArticles` (main.go lines 186-192):
the title check runs first, then the publish-date check, each failing with
`fmt.Errorf` naming the field and the input path. -/
def validateArticle (inPath : String) (a : Article) : Except String Unit :=
  if a.title = "" then .error ("No title for article: " ++ inPath)
  else if a.publishedAt = none then
    .error ("No publish date for article: " ++ inPath)
  else .ok ()

/-- The required-field checks of `compileFragments` (main.go lines 241-247). -/
def validateFragment (inPath : String) (f : Fragment) : Except String Unit :=
  if f.title = "" then .error ("No title for fragment: " ++ inPath)
  else if f.publishedAt = none then
    .error ("No publish date for fragment: " ++ inPath)
  else .ok ()

/-- One iteration of the loop of `compileArticles` (main.go lines 164-208):
split the frontmatter, decode it, validate required fields, render the body.
The YAML decoder `yd` and the Markdown renderer `md` are abstracted, as the
repository treats both as external capabilities. -/
def processArticle (yd : String → Except String Article) (md : String → String)
    (inPath : String) (raw : String) : Except String Article :=
  match splitFrontmatter raw with
  | .error e => .error e
  | .ok fb =>
    match yd fb.1 with
    | .error e => .error e
    | .ok a =>
      match validateArticle inPath a with
      | .error e => .error e
      | .ok _ => .ok { a with content := md fb.2, toc := "" }

/-- `compileArticles` (main.go lines 158-211) over the listed source files
(name, raw content): the first failing file aborts the stage with its
error. -/
def compileArticles (yd : String → Except String Article)
    (md : String → String) :
    List (String × String) → Except String (List Article)
  | [] => .ok []
  | (name, raw) :: rest =>
    match processArticle yd md (articlesDir ++ name) raw with
    | .error e => .error e
    | .ok a =>
      match compileArticles yd md rest with
      | .error e => .error e
      | .ok rest2 => .ok (a :: rest2)

/-- One iteration of the loop of `compileFragments` (main.go lines 219-260). -/
def processFragment (yd : String → Except String Fragment)
    (md : String → String) (inPath : String) (raw : String) :
    Except String Fragment :=
  match splitFrontmatter raw with
  | .error e => .error e
  | .ok fb =>
    match yd fb.1 with
    | .error e => .error e
    | .ok f =>
      match validateFragment inPath f with
      | .error e => .error e
      | .ok _ => .ok { f with content := md fb.2 }

/-- `compileFragments` (main.go lines 213-263). -/
def compileFragments (yd : String → Except String Fragment)
    (md : String → String) :
    List (String × String) → Except String (List Fragment)
  | [] => .ok []
  | (name, raw) :: rest =>
    match processFragment yd md (fragmentsDir ++ name) raw with
    | .error e => .error e
    | .ok f =>
      match compileFragments yd md rest with
      | .error e => .error e
      | .ok rest2 => .ok (f :: rest2)

/-- A Go slice: either the nil slice (`var s []T`, which renders as null)
or a non-nil slice holding its elements (`[]T{...}`).  Go distinguishes the
two, and `compileRuns` relies on the distinction: the code comment at
main.go lines 286-287 initializes the chart arrays "0 elements (instead of
null)" precisely because a nil slice is null. -/
inductive GoSlice (α : Type) where
  | nil
  | slice (l : List α)
deriving DecidableEq

/-- Whether a slice is the nil slice (the one that renders as null). -/
def GoSlice.isNull {α : Type} : GoSlice α → Bool
  | .nil => true
  | .slice _ => false

/-- The length of a slice; the nil slice has length 0. -/
def GoSlice.length {α : Type} : GoSlice α → Nat
  | .nil => 0
  | .slice l => l.length

/-- Go `append(s, x)`: appending to the nil slice allocates, so the result
is never nil. -/
def GoSlice.push {α : Type} : GoSlice α → α → GoSlice α
  | .nil, x => .slice [x]
  | .slice l, x => .slice (l ++ [x])

/-- A row loop of `compileRuns` (e.g. main.go lines 320-340): append each
returned row in turn to the accumulator slice.  Zero rows leave the
accumulator unchanged (a nil accumulator stays nil). -/
def appendRows {α : Type} : GoSlice α → List α → GoSlice α
  | s, [] => s
  | s, x :: xs => appendRows (s.push x) xs

/-- The heterogeneous values stored in a locals map (Go
`map[string]interface{}`), restricted to the value shapes this program
actually stores.  Slice-valued entries keep Go's nil/non-nil distinction. -/
inductive LVal where
  | str (s : String)
  | article (a : Article)
  | fragment (f : Fragment)
  | runList (rs : GoSlice Run)
  | dayList (ds : GoSlice Int)
  | distList (qs : GoSlice ℚ)
  | strList (ss : GoSlice String)
deriving DecidableEq

/-- Modelled from the spec: `sorg.Release`, the build/release identifier
constant of the excluded package; its value is opaque here. -/
def sorgRelease : String := "release"

/-- The `defaults` map built by `getLocals` (main.go lines 268-274). -/
def defaultLocals (conf : Conf) (title : String) : String → Option LVal :=
  fun k =>
    if k = "BodyClass" then some (.str "")
    else if k = "GoogleAnalyticsID" then some (.str conf.googleAnalyticsID)
    else if k = "Release" then some (.str sorgRelease)
    else if k = "Title" then some (.str title)
    else if k = "ViewportWidth" then some (.str "device-width")
    else none

/-- `getLocals` (main.go lines 267-281): every page-specific binding is
inserted into the defaults map, so a page-specific binding wins on key
collision and all other keys fall back to the baseline. -/
def getLocals (conf : Conf) (title : String)
    (locals : String → Option LVal) : String → Option LVal :=
  fun k =>
    match locals k with
    | some v => some v
    | none => defaultLocals conf title k

/-- The five baseline keys `getLocals` always provides. -/
def baselineKeys : List String :=
  ["BodyClass", "GoogleAnalyticsID", "Release", "Title", "ViewportWidth"]

/-- One row of the external `events` relation as consumed by the run queries
of `compileRuns` (main.go lines 300-454): the metadata lookups for distance
(meters), elevation gain, city, moving time (seconds) and the occurrence
timestamps.  `day` and `year` stand for `date_trunc('day', ...)` and
`date_part('year', ...)` of `occurred_at_local`, abstracted as integer day
and year indices (the sub-day precision of the SQL window filter is below
this model's granularity). -/
structure RunEvent where
  distance : ℚ
  elevationGain : ℚ
  locationCity : Option String
  movingTimeSec : Int
  occurredAt : Int
  occurredAtLocal : Int
  day : Int
  year : Int
deriving DecidableEq

/-- Insert an event into a list sorted by occurrence time descending
(`ORDER BY occurred_at DESC` of the first query, main.go line 312). -/
def insertRunDesc (e : RunEvent) : List RunEvent → List RunEvent
  | [] => [e]
  | x :: xs =>
    if x.occurredAt ≤ e.occurredAt then e :: x :: xs
    else x :: insertRunDesc e xs

/-- The events sorted by occurrence time descending. -/
def sortRunsDesc (l : List RunEvent) : List RunEvent :=
  l.foldr insertRunDesc []

/-- The row-scan of the first query (main.go lines 320-340): build a `Run`
from a row, substituting `""` for a missing city and converting moving time
to nanoseconds (`* 1000000000`, line 307). -/
def toRun (e : RunEvent) : Run :=
  { distance := e.distance
    elevationGain := e.elevationGain
    locationCity := match e.locationCity with | some c => c | none => ""
    movingTime := e.movingTimeSec * 1000000000
    occurredAt := some e.occurredAtLocal }

/-- The first query of `compileRuns` (main.go lines 300-314): the 30 most
recent runs, most recent first. -/
def recentRuns (events : List RunEvent) : List Run :=
  ((sortRunsDesc events).take 30).map toRun

/-- The day column of the second query's `days` CTE (main.go lines 372-377):
`generate_series(NOW() - '180 days', NOW(), '1 day')`, one entry per calendar
day from 180 days ago through today, both endpoints included. -/
def lastYearDays (today : Int) : List Int :=
  (List.range 181).map (fun (i : Nat) => today - 180 + (i : Int))

/-- The `runs_days` aggregation of the second query (main.go lines 361-367):
total kilometers (`distance / 1000`, line 355) run on day `d`. -/
def daySum (events : List RunEvent) (d : Int) : ℚ :=
  ((events.filter (fun e => e.day == d)).map (fun e => e.distance / 1000)).sum

/-- The result rows of the second query (main.go lines 350-384): the dense
daily series `d.distance + COALESCE(rd.distance, 0)` over the baseline days,
ordered day ascending.  The `0::float` baseline distance appears as the
explicit `0 +`. -/
def dailySeries (today : Int) (events : List RunEvent) : List (Int × ℚ) :=
  (lastYearDays today).map (fun d => (d, 0 + daySum events d))

/-- Insert a year into a list of distinct years sorted descending
(`GROUP BY year ORDER BY year DESC` of the third query, main.go
lines 428-429). -/
def insertYearDesc (y : Int) : List Int → List Int
  | [] => [y]
  | x :: xs =>
    if y = x then x :: xs
    else if x < y then y :: x :: xs
    else x :: insertYearDesc y xs

/-- The distinct years of the events, most recent first. -/
def yearsDesc (events : List RunEvent) : List Int :=
  events.foldr (fun e acc => insertYearDesc e.year acc) []

/-- Total kilometers run in year `y` (third query, main.go lines 414-430). -/
def yearSum (events : List RunEvent) (y : Int) : ℚ :=
  ((events.filter (fun e => e.year == y)).map (fun e => e.distance / 1000)).sum

/-- The result rows of the third query: kilometers per year, most recent
year first, the year rendered as text (`date_part('year', ...)::text`). -/
def yearlySeries (events : List RunEvent) : List (String × ℚ) :=
  (yearsDesc events).map (fun y => (toString y, yearSum events y))

/-- The page-specific locals `compileRuns` passes to `getLocals`
(main.go lines 457-467). -/
def runsLocals (runs : GoSlice Run) (lastYearXDays : GoSlice Int)
    (lastYearYDistances : GoSlice ℚ) (byYearXYears : GoSlice String)
    (byYearYDistances : GoSlice ℚ) : String → Option LVal :=
  fun k =>
    if k = "Runs" then some (.runList runs)
    else if k = "LastYearXDays" then some (.dayList lastYearXDays)
    else if k = "LastYearYDistances" then some (.distList lastYearYDistances)
    else if k = "ByYearXYears" then some (.strList byYearXYears)
    else if k = "ByYearYDistances" then some (.distList byYearYDistances)
    else none

/-- `compileRuns` (main.go lines 283-476): the activity list starts as the
nil slice (`var runs []*Run`, line 284) while the four chart arrays are
explicitly initialized to empty non-nil slices (lines 288-292, "0 elements
(instead of null)"); only when a Black Swan database URL is configured are
the three queries executed (their count is returned) and the row loops
append to those slices; the runs view is always rendered.  The view
renderer is abstracted as `render`. -/
def compileRuns (conf : Conf) (today : Int) (events : List RunEvent)
    (render : (String → Option LVal) → Except String Unit) :
    Nat × Except String Unit :=
  if conf.blackSwanDatabaseURL ≠ "" then
    (3, render (getLocals conf "Runs"
      (runsLocals (appendRows .nil (recentRuns events))
        (appendRows (.slice []) ((dailySeries today events).map Prod.fst))
        (appendRows (.slice []) ((dailySeries today events).map Prod.snd))
        (appendRows (.slice []) ((yearlySeries events).map Prod.fst))
        (appendRows (.slice []) ((yearlySeries events).map Prod.snd)))))
  else
    (0, render (getLocals conf "Runs"
      (runsLocals .nil (.slice []) (.slice []) (.slice []) (.slice []))))

/-- `stylesheets` (main.go lines 26-40): the fixed ordered list of style
source files. -/
def stylesheets : List String :=
  ["_reset.sass", "main.sass", "about.sass", "fragments.sass", "index.sass",
    "photos.sass", "quotes.sass", "reading.sass", "runs.sass",
    "signature.sass", "solarized-light.css", "tenets.sass", "twitter.sass"]

/-- Modelled from the spec: `sorg.StylesheetsDir`, the stylesheet source
root, a constant of the excluded directory-setup collaborator. -/
def stylesheetsDir : String := "./content/stylesheets/"

/-- Go `strings.HasSuffix`. -/
def strHasSuffix (s suffix : String) : Bool :=
  suffix.toList.length ≤ s.toList.length &&
    s.toList.drop (s.toList.length - suffix.toList.length) == suffix.toList

/-- The loop of `compileStylesheets` (main.go lines 485-509), with `out`
accumulating the bytes written to the single output file: per entry a
comment banner naming the source file, then the gcss-compiled content for
`.sass` files or the verbatim content otherwise, then a blank separator.
The filesystem `fs` and the gcss compiler `sass` are abstracted. -/
def stylesheetLoop (fs : String → Except String String)
    (sass : String → Except String String) :
    List String → String → Except String String
  | [], out => .ok out
  | name :: rest, out =>
    match fs name with
    | .error e => .error e
    | .ok content =>
      let out1 := out ++ "/* " ++ name ++ " */\n\n"
      if strHasSuffix name ".sass" then
        match sass content with
        | .error e =>
          .error ("Error compiling " ++ (stylesheetsDir ++ name) ++ ": " ++ e)
        | .ok css => stylesheetLoop fs sass rest (out1 ++ css ++ "\n\n")
      else
        stylesheetLoop fs sass rest (out1 ++ content ++ "\n\n")

/-- `compileStylesheets` (main.go lines 478-512). -/
def compileStylesheets (fs sass : String → Except String String) :
    Except String String :=
  stylesheetLoop fs sass stylesheets ""

/-- The section the bundle contains for one stylesheet named `n` whose raw
content is `content n` and whose compiled content is `compiled n`. -/
def styleSection (content compiled : String → String) (n : String) : String :=
  "/* " ++ n ++ " */\n\n" ++
    (if strHasSuffix n ".sass" then compiled n else content n) ++ "\n\n"

/-- Concatenation of the sections of the named stylesheets, in order. -/
def concatSections (content compiled : String → String) :
    List String → String
  | [] => ""
  | n :: rest => styleSection content compiled n ++
      concatSections content compiled rest

/-- The whole expected bundle: the sections of the configured stylesheets
concatenated in list order. -/
def expectedBundle (content compiled : String → String) : String :=
  concatSections content compiled stylesheets

/-- The six build stages of `main` (main.go lines 119-156). -/
inductive Stage where
  | createTargetDirs
  | articlesStage
  | fragmentsStage
  | runsStage
  | stylesheetsStage
  | imageAssetsStage
deriving DecidableEq

/-- The fixed stage order of `main`: ensure target directories, compile
articles, compile fragments, compile the runs page, compile stylesheets,
link image assets. -/
def buildStages : List Stage :=
  [.createTargetDirs, .articlesStage, .fragmentsStage, .runsStage,
    .stylesheetsStage, .imageAssetsStage]

/-- The observable outcome of a build over a world `W`: which stages were
entered (in order), the world as produced by the completed stages, and the
error of the failing stage, if any. -/
structure BuildOutcome (W : Type) where
  executed : List Stage
  world : W
  err : Option String
deriving DecidableEq

/-- Run stages in order, as `main` does: each stage call is followed by
`log.Fatal(err)` on failure, which terminates the process at once, so a
failing stage ends the run with the world the completed stages produced (no
rollback happens). -/
def runStageList {W : Type} (exec : Stage → W → Except String W) :
    List Stage → W → BuildOutcome W
  | [], w => ⟨[], w, none⟩
  | s :: rest, w =>
    match exec s w with
    | .error e => ⟨[s], w, some e⟩
    | .ok w2 =>
      let r := runStageList exec rest w2
      ⟨s :: r.executed, r.world, r.err⟩

/-- `main` (main.go lines 119-156): run the six stages in their fixed
order. -/
def mainBuild {W : Type} (exec : Stage → W → Except String W) (w : W) :
    BuildOutcome W :=
  runStageList exec buildStages w

/-- Sequential composition of stage effects, for stating what world a run of
several stages produces. -/
def applyStages {W : Type} (exec : Stage → W → Except String W) :
    List Stage → W → Except String W
  | [], w => .ok w
  | s :: rest, w =>
    match exec s w with
    | .error e => .error e
    | .ok w2 => applyStages exec rest w2

/-- A concrete article with an empty title but a present publish date. -/
def articleNoTitleW : Article := { publishedAt := some 0 }

/-- A concrete article with a title but an absent publish date. -/
def articleNoDateW : Article := { title := "T" }

/-- A concrete article passing validation. -/
def articleOkW : Article := { title := "T", publishedAt := some 0 }

/-- A concrete article with both required fields missing. -/
def articleBothMissingW : Article := {}

/-- A concrete fragment with an empty title but a present publish date. -/
def fragmentNoTitleW : Fragment := { publishedAt := some 0 }

/-- A concrete fragment with a title but an absent publish date. -/
def fragmentNoDateW : Fragment := { title := "T" }

/-- A concrete fragment passing validation. -/
def fragmentOkW : Fragment := { title := "T", publishedAt := some 0 }

/-- A concrete fragment with both required fields missing. -/
def fragmentBothMissingW : Fragment := {}

/-- A configuration with no Black Swan database URL configured. -/
def confNoDbW : Conf := {}

/-- A concrete configuration with an analytics identifier. -/
def confW : Conf := { googleAnalyticsID := "GA" }

/-- A view renderer that always succeeds. -/
def renderOkW : (String → Option LVal) → Except String Unit := fun _ => .ok ()

/-- A view renderer that reports whether the activity list it receives is
the nil slice (i.e. would render as null). -/
def renderFailOnNullRunsW : (String → Option LVal) → Except String Unit :=
  fun loc =>
    match loc "Runs" with
    | some (.runList s) => if s.isNull then .error "null runs" else .ok ()
    | _ => .error "no Runs key"

/-- A concrete page-specific locals map colliding on `Title` and adding
`Extra`. -/
def localsW : String → Option LVal := fun k =>
  if k = "Title" then some (.str "Override")
  else if k = "Extra" then some (.str "X")
  else none

/-- A concrete filesystem for the stylesheet bundle: every file exists. -/
def fsW : String → Except String String := fun n => .ok ("A:" ++ n)

/-- A concrete gcss compiler that always succeeds. -/
def sassW : String → Except String String := fun c => .ok ("S:" ++ c)

/-- The contents `fsW` serves. -/
def contentW : String → String := fun n => "A:" ++ n

/-- The compiled form `sassW` produces for the contents of `fsW`. -/
def compiledW : String → String := fun n => "S:" ++ ("A:" ++ n)

/-- A concrete event row whose stored distance is negative: nothing in the
queries of main.go lines 350-384 prevents a negative
`metadata -> 'distance'` value. -/
def runEventNegW : RunEvent :=
  { distance := -5000
    elevationGain := 0
    locationCity := none
    movingTimeSec := 1800
    occurredAt := 0
    occurredAtLocal := 0
    day := -3
    year := 2024 }

/-- A concrete run event: a 5 km run three days ago. -/
def runEventW : RunEvent :=
  { distance := 5000
    elevationGain := 100
    locationCity := none
    movingTimeSec := 1800
    occurredAt := 0
    occurredAtLocal := 0
    day := -3
    year := 2024 }

theorem fmSplitAux_length_pos (k : Nat) (b : Bool) (acc cs : List Char) :
    1 ≤ (fmSplitAux k b acc cs).length := by
  induction k, b, acc, cs using fmSplitAux.induct <;> simp [fmSplitAux, *]

theorem fmSplitAux_ne_nil (k : Nat) (b : Bool) (acc cs : List Char) :
    fmSplitAux k b acc cs ≠ [] := by
  have h := fmSplitAux_length_pos k b acc cs
  intro hnil
  rw [hnil] at h
  simp at h

theorem fmSplitAux_length_le (k : Nat) (b : Bool) (acc cs : List Char) :
    (fmSplitAux k b acc cs).length ≤ k + 1 := by
  induction k, b, acc, cs using fmSplitAux.induct <;>
    simp [fmSplitAux, *]

theorem joinCharParts_cons (p : List Char) (l : List (List Char)) (h : l ≠ []) :
    joinCharParts (p :: l) = p ++ '-' :: '-' :: '-' :: joinCharParts l := by
  cases l with
  | nil => exact absurd rfl h
  | cons q ps => rfl

theorem fmSplitAux_step (k : Nat) (b : Bool) (acc : List Char) (c : Char)
    (rest : List Char)
    (hne : ∀ (k2 : Nat) (tail : List Char), k = k2.succ → b = true → c = '-' →
      rest = '-' :: '-' :: tail → False) :
    fmSplitAux k b acc (c :: rest) = fmSplitAux k (c == '\n') (c :: acc) rest := by
  rw [fmSplitAux]
  exact hne

theorem hasSplitPoint_step (b : Bool) (c : Char) (rest : List Char)
    (hx : ∀ (tail : List Char), b = true → c = '-' →
      rest = '-' :: '-' :: tail → False) :
    hasSplitPoint b (c :: rest) = hasSplitPoint (c == '\n') rest := by
  rw [hasSplitPoint]
  exact hx

theorem joinCharParts_fmSplitAux (k : Nat) (b : Bool) (acc cs : List Char) :
    joinCharParts (fmSplitAux k b acc cs) = acc.reverse ++ cs := by
  induction k, b, acc, cs using fmSplitAux.induct with
  | case1 _ _ acc => simp [fmSplitAux, joinCharParts]
  | case2 k acc rest ih =>
      rw [fmSplitAux, joinCharParts_cons _ _ (fmSplitAux_ne_nil _ _ _ _), ih]
      simp
  | case3 k b acc c rest hne ih =>
      rw [fmSplitAux_step k b acc c rest hne, ih]
      simp

theorem fmSplitAux_length_eq_one_iff (k : Nat) (b : Bool) (acc cs : List Char)
    (hk : 1 ≤ k) :
    ((fmSplitAux k b acc cs).length = 1 ↔ hasSplitPoint b cs = false) := by
  revert hk
  induction k, b, acc, cs using fmSplitAux.induct with
  | case1 _ _ acc =>
      intro _
      simp [fmSplitAux, hasSplitPoint]
  | case2 k acc rest ih =>
      intro _
      have h1 := fmSplitAux_length_pos k false [] rest
      rw [fmSplitAux]
      constructor
      · intro h2
        simp only [List.length_cons] at h2
        omega
      · intro h2
        rw [hasSplitPoint] at h2
        cases h2
  | case3 k b acc c rest hne ih =>
      intro hk
      have hx : ∀ (tail : List Char), b = true → c = '-' →
          rest = '-' :: '-' :: tail → False := by
        intro tail hb hc hr
        cases k with
        | zero => exact absurd hk (by simp)
        | succ k2 => exact hne k2 tail rfl hb hc hr
      rw [fmSplitAux_step k b acc c rest hne, hasSplitPoint_step b c rest hx]
      exact ih hk

theorem splitParts_length_pos (content : String) :
    1 ≤ (splitParts content).length := by
  simpa [splitParts] using fmSplitAux_length_pos 2 true [] content.toList

theorem splitParts_length_le (content : String) :
    (splitParts content).length ≤ 3 := by
  simpa [splitParts] using fmSplitAux_length_le 2 true [] content.toList

theorem toList_mk (cs : List Char) : (String.mk cs).toList = cs := rfl

theorem map_mk_toList (l : List (List Char)) :
    (l.map String.mk).map String.toList = l := by
  induction l with
  | nil => rfl
  | cons x xs ih => simp [ih, toList_mk]

theorem joinParts_splitParts (content : String) :
    joinParts (splitParts content) = content := by
  show String.mk (joinCharParts
    (((fmSplitAux 2 true [] content.toList).map String.mk).map String.toList)) = content
  rw [map_mk_toList, joinCharParts_fmSplitAux]
  rfl

theorem splitParts_length_eq_one_iff (content : String) :
    (splitParts content).length = 1 ↔ hasSplitPoint true content.toList = false := by
  simpa [splitParts] using
    fmSplitAux_length_eq_one_iff 2 true [] content.toList (by omega)

end Sorg

namespace Sorg

/-- C1 (corrected): for every input containing at least one recognised
separator (an occurrence of `---` at the start of a line), `splitFrontmatter`
fails with the bad-frontmatter error if and only if the text standing before
the first separator is non-empty — the Go code tests `parts[0] != ""`, so
even whitespace-only leading text causes the failure. -/
theorem splitFrontmatter_error_iff_leadingNonempty (content : String)
    (h : hasSplitPoint true content.toList = true) :
    splitFrontmatter content = .error errBadFrontmatter ↔
      (splitParts content).getD 0 "" ≠ "" := by
  have hne1 : (splitParts content).length ≠ 1 := by
    intro h1
    rw [splitParts_length_eq_one_iff] at h1
    rw [h] at h1
    exact Bool.noConfusion h1
  have hgt : 1 < (splitParts content).length := by
    have := splitParts_length_pos content
    omega
  have hle := splitParts_length_le content
  rcases (show (splitParts content).length = 2 ∨ (splitParts content).length = 3 by
    omega) with h2 | h3
  · obtain ⟨a, b, hab⟩ := List.length_eq_two.mp h2
    by_cases ha : a = ""
    · simp [splitFrontmatter, hab, ha]
    · simp [splitFrontmatter, hab, ha]
  · obtain ⟨a, b, c, habc⟩ := List.length_eq_three.mp h3
    by_cases ha : a = ""
    · simp [splitFrontmatter, habc, ha]
    · simp [splitFrontmatter, habc, ha]

/-- C1 counterexample: in the document `"\n---\nbody"` the text before the
first separator is `"\n"`, which is non-empty but entirely whitespace, and
`splitFrontmatter` nevertheless fails with the bad-frontmatter error,
refuting "leading text that is empty or whitespace-only does not cause
failure". -/
theorem splitFrontmatter_whitespaceLeading_errors :
    (splitParts "\n---\nbody").getD 0 "" = "\n" ∧
    ("\n".toList.all goIsSpace) = true ∧
    splitFrontmatter "\n---\nbody" = .error errBadFrontmatter := by
  refine ⟨by decide, by decide, by decide⟩

/-- C1 witness: the corrected equivalence applied to the concrete document
`"a\n---\nb"`, whose leading text `"a\n"` is non-empty, so the splitter
fails. -/
theorem splitFrontmatter_error_iff_leadingNonempty_witness :
    (splitFrontmatter "a\n---\nb" = .error errBadFrontmatter ↔
      (splitParts "a\n---\nb").getD 0 "" ≠ "") ∧
    splitFrontmatter "a\n---\nb" = .error errBadFrontmatter :=
  ⟨splitFrontmatter_error_iff_leadingNonempty "a\n---\nb" (by decide), by decide⟩

/-- C2 (corrected): the split underlying `splitFrontmatter` always yields
between 1 and 3 parts (at most two split points are consumed), the parts
reassemble to the original text when the consumed `---` markers are
re-inserted, and the input stays unsplit exactly when no line of it starts
with `---`.  The recognised separator is an occurrence of `---` at the start
of a line, not a line consisting of exactly `---`. -/
theorem splitParts_bounds_join_and_splitPoint (content : String) :
    1 ≤ (splitParts content).length ∧
    (splitParts content).length ≤ 3 ∧
    joinParts (splitParts content) = content ∧
    ((splitParts content).length = 1 ↔ hasSplitPoint true content.toList = false) :=
  ⟨splitParts_length_pos content, splitParts_length_le content,
    joinParts_splitParts content, splitParts_length_eq_one_iff content⟩

/-- C2 counterexample: the document `"---x\nbody"` contains no line that is
exactly `---`, yet `splitFrontmatter` splits it at the leading `---` (the
body becomes `"x\nbody"` rather than the whole trimmed text), so a line with
additional characters after `---` is in fact treated as a separator. -/
theorem splitFrontmatter_dashPrefixLine_splits :
    exactSeparatorCount "---x\nbody" = 0 ∧
    (splitParts "---x\nbody").length = 2 ∧
    splitFrontmatter "---x\nbody" = .ok ("", "x\nbody") ∧
    trimSpace "---x\nbody" ≠ "x\nbody" := by
  refine ⟨by decide, by decide, by decide, by decide⟩

/-- C2 witness: the corrected bounds instantiated at the concrete document
`"---\nmeta\n---\nbody"`, which splits into exactly three parts. -/
theorem splitParts_bounds_join_and_splitPoint_witness :
    (1 ≤ (splitParts "---\nmeta\n---\nbody").length ∧
      (splitParts "---\nmeta\n---\nbody").length ≤ 3 ∧
      joinParts (splitParts "---\nmeta\n---\nbody") = "---\nmeta\n---\nbody" ∧
      ((splitParts "---\nmeta\n---\nbody").length = 1 ↔
        hasSplitPoint true ("---\nmeta\n---\nbody".toList) = false)) ∧
    (splitParts "---\nmeta\n---\nbody").length = 3 :=
  ⟨splitParts_bounds_join_and_splitPoint "---\nmeta\n---\nbody", by decide⟩

/-- C3 (corrected): the successful case analysis of `splitFrontmatter`, with
"separator" meaning a consumed split point (an occurrence of `---` at the
start of a line, of which at most two are consumed): with no split point the
metadata is empty and the body is the whole input trimmed; with one split
point and empty leading text the metadata is empty and the body is the text
after the split point, trimmed; with two split points and empty leading text
the metadata is the trimmed text between them and the body the trimmed text
after the second. -/
theorem splitFrontmatter_caseAnalysis (content : String) :
    ((splitParts content).length = 1 →
      splitFrontmatter content = .ok ("", trimSpace content)) ∧
    ((splitParts content).length = 2 → (splitParts content).getD 0 "" = "" →
      splitFrontmatter content =
        .ok ("", trimSpace ((splitParts content).getD 1 ""))) ∧
    ((splitParts content).length = 3 → (splitParts content).getD 0 "" = "" →
      splitFrontmatter content =
        .ok (trimSpace ((splitParts content).getD 1 ""),
          trimSpace ((splitParts content).getD 2 ""))) := by
  refine ⟨?_, ?_, ?_⟩
  · intro h1
    obtain ⟨a, ha⟩ := List.length_eq_one.mp h1
    have hac : a = content := by
      have hj := joinParts_splitParts content
      rw [ha] at hj
      simpa [joinParts, joinCharParts] using hj
    simp [splitFrontmatter, ha, hac]
  · intro h2 hd
    obtain ⟨a, b, hab⟩ := List.length_eq_two.mp h2
    rw [hab] at hd
    have ha : a = "" := by simpa using hd
    simp [splitFrontmatter, hab, ha]
  · intro h3 hd
    obtain ⟨a, b, c, habc⟩ := List.length_eq_three.mp h3
    rw [habc] at hd
    have ha : a = "" := by simpa using hd
    simp [splitFrontmatter, habc, ha]

/-- C3 counterexample: the document `"---\nfoo\n---bar"` has exactly one line
consisting of exactly `---` (its first line) and empty leading text, so under
the claim's reading the metadata block would be empty; the code instead also
splits at the `---` of `"---bar"` and returns metadata `"foo"`. -/
theorem splitFrontmatter_oneExactSeparator_nonemptyMeta :
    exactSeparatorCount "---\nfoo\n---bar" = 1 ∧
    (splitLines "---\nfoo\n---bar").getD 0 "" = "---" ∧
    splitFrontmatter "---\nfoo\n---bar" = .ok ("foo", "bar") ∧
    splitFrontmatter "---\nfoo\n---bar" ≠
      .ok ("", trimSpace "\nfoo\n---bar") := by
  refine ⟨by decide, by decide, by decide, by decide⟩

/-- C3 witness: the corrected case analysis applied to three concrete
documents, one per case. -/
theorem splitFrontmatter_caseAnalysis_witness :
    splitFrontmatter "b" = .ok ("", "b") ∧
    splitFrontmatter "---\nb" = .ok ("", "b") ∧
    splitFrontmatter "---\nm\n---\nb" = .ok ("m", "b") := by
  refine ⟨?_, ?_, ?_⟩
  · have h := (splitFrontmatter_caseAnalysis "b").1 (by decide)
    rw [h]
    decide
  · have h := (splitFrontmatter_caseAnalysis "---\nb").2.1 (by decide) (by decide)
    rw [h]
    decide
  · have h := (splitFrontmatter_caseAnalysis "---\nm\n---\nb").2.2 (by decide)
      (by decide)
    rw [h]
    decide

theorem validateArticle_ok_iff (inPath : String) (a : Article) :
    validateArticle inPath a = .ok () ↔ a.title ≠ "" ∧ a.publishedAt ≠ none := by
  unfold validateArticle
  split_ifs with h1 h2 <;> simp_all

theorem validateFragment_ok_iff (inPath : String) (f : Fragment) :
    validateFragment inPath f = .ok () ↔ f.title ≠ "" ∧ f.publishedAt ≠ none := by
  unfold validateFragment
  split_ifs with h1 h2 <;> simp_all

theorem processArticle_ok_valid (yd : String → Except String Article)
    (md : String → String) (inPath raw : String) (a : Article)
    (h : processArticle yd md inPath raw = .ok a) :
    ∃ fb a0, splitFrontmatter raw = .ok fb ∧ yd fb.1 = .ok a0 ∧
      a0.title ≠ "" ∧ a0.publishedAt ≠ none := by
  unfold processArticle at h
  cases hs : splitFrontmatter raw with
  | error e => rw [hs] at h; cases h
  | ok fb =>
    rw [hs] at h
    dsimp only at h
    cases hy : yd fb.1 with
    | error e => rw [hy] at h; cases h
    | ok a0 =>
      rw [hy] at h
      dsimp only at h
      cases hv : validateArticle inPath a0 with
      | error e => rw [hv] at h; cases h
      | ok u =>
        have hu : validateArticle inPath a0 = .ok () := by
          cases u
          exact hv
        have hval := (validateArticle_ok_iff inPath a0).mp hu
        exact ⟨fb, a0, rfl, hy, hval.1, hval.2⟩

theorem processFragment_ok_valid (yd : String → Except String Fragment)
    (md : String → String) (inPath raw : String) (f : Fragment)
    (h : processFragment yd md inPath raw = .ok f) :
    ∃ fb f0, splitFrontmatter raw = .ok fb ∧ yd fb.1 = .ok f0 ∧
      f0.title ≠ "" ∧ f0.publishedAt ≠ none := by
  unfold processFragment at h
  cases hs : splitFrontmatter raw with
  | error e => rw [hs] at h; cases h
  | ok fb =>
    rw [hs] at h
    dsimp only at h
    cases hy : yd fb.1 with
    | error e => rw [hy] at h; cases h
    | ok f0 =>
      rw [hy] at h
      dsimp only at h
      cases hv : validateFragment inPath f0 with
      | error e => rw [hv] at h; cases h
      | ok u =>
        have hu : validateFragment inPath f0 = .ok () := by
          cases u
          exact hv
        have hval := (validateFragment_ok_iff inPath f0).mp hu
        exact ⟨fb, f0, rfl, hy, hval.1, hval.2⟩

theorem compileArticles_ok_valid (yd : String → Except String Article)
    (md : String → String) (files : List (String × String)) :
    ∀ (out : List Article), compileArticles yd md files = .ok out →
      ∀ nr ∈ files, ∃ fb a, splitFrontmatter nr.2 = .ok fb ∧
        yd fb.1 = .ok a ∧ a.title ≠ "" ∧ a.publishedAt ≠ none := by
  induction files with
  | nil =>
      intro out _ nr hnr
      cases hnr
  | cons hd rest ih =>
      intro out h nr hnr
      obtain ⟨name, raw⟩ := hd
      rw [compileArticles] at h
      cases hp : processArticle yd md (articlesDir ++ name) raw with
      | error e => rw [hp] at h; cases h
      | ok a =>
        rw [hp] at h
        dsimp only at h
        cases hr : compileArticles yd md rest with
        | error e => rw [hr] at h; cases h
        | ok rest2 =>
          rcases List.mem_cons.mp hnr with hnr1 | hnr2
          · subst hnr1
            exact processArticle_ok_valid yd md _ raw a hp
          · exact ih rest2 hr nr hnr2

theorem compileFragments_ok_valid (yd : String → Except String Fragment)
    (md : String → String) (files : List (String × String)) :
    ∀ (out : List Fragment), compileFragments yd md files = .ok out →
      ∀ nr ∈ files, ∃ fb f, splitFrontmatter nr.2 = .ok fb ∧
        yd fb.1 = .ok f ∧ f.title ≠ "" ∧ f.publishedAt ≠ none := by
  induction files with
  | nil =>
      intro out _ nr hnr
      cases hnr
  | cons hd rest ih =>
      intro out h nr hnr
      obtain ⟨name, raw⟩ := hd
      rw [compileFragments] at h
      cases hp : processFragment yd md (fragmentsDir ++ name) raw with
      | error e => rw [hp] at h; cases h
      | ok f =>
        rw [hp] at h
        dsimp only at h
        cases hr : compileFragments yd md rest with
        | error e => rw [hr] at h; cases h
        | ok rest2 =>
          rcases List.mem_cons.mp hnr with hnr1 | hnr2
          · subst hnr1
            exact processFragment_ok_valid yd md _ raw f hp
          · exact ih rest2 hr nr hnr2

/-- C4: a decoded article or fragment fails validation with the
missing-title error exactly when its title is empty, with the
missing-publish-date error when the title is present but the timestamp is
absent (each error names the field and the source file), and passes
validation when both required fields are present; and the article and
fragment build stages succeed only if every listed file's decoded record
passed validation, so a single invalid record aborts the stage (and the
orchestrator then aborts the build). -/
theorem requiredFieldValidation :
    (∀ (inPath : String) (a : Article),
      (a.title = "" →
        validateArticle inPath a = .error ("No title for article: " ++ inPath)) ∧
      (a.title ≠ "" → a.publishedAt = none →
        validateArticle inPath a =
          .error ("No publish date for article: " ++ inPath)) ∧
      (a.title ≠ "" → a.publishedAt ≠ none →
        validateArticle inPath a = .ok ())) ∧
    (∀ (inPath : String) (f : Fragment),
      (f.title = "" →
        validateFragment inPath f = .error ("No title for fragment: " ++ inPath)) ∧
      (f.title ≠ "" → f.publishedAt = none →
        validateFragment inPath f =
          .error ("No publish date for fragment: " ++ inPath)) ∧
      (f.title ≠ "" → f.publishedAt ≠ none →
        validateFragment inPath f = .ok ())) ∧
    (∀ (yd : String → Except String Article) (md : String → String)
      (files : List (String × String)) (out : List Article),
      compileArticles yd md files = .ok out →
      ∀ nr ∈ files, ∃ fb a, splitFrontmatter nr.2 = .ok fb ∧
        yd fb.1 = .ok a ∧ a.title ≠ "" ∧ a.publishedAt ≠ none) ∧
    (∀ (yd : String → Except String Fragment) (md : String → String)
      (files : List (String × String)) (out : List Fragment),
      compileFragments yd md files = .ok out →
      ∀ nr ∈ files, ∃ fb f, splitFrontmatter nr.2 = .ok fb ∧
        yd fb.1 = .ok f ∧ f.title ≠ "" ∧ f.publishedAt ≠ none) := by
  refine ⟨?_, ?_, ?_, ?_⟩
  · intro inPath a
    refine ⟨?_, ?_, ?_⟩ <;> intros <;> simp [validateArticle, *]
  · intro inPath f
    refine ⟨?_, ?_, ?_⟩ <;> intros <;> simp [validateFragment, *]
  · intro yd md files out h nr hnr
    exact compileArticles_ok_valid yd md files out h nr hnr
  · intro yd md files out h nr hnr
    exact compileFragments_ok_valid yd md files out h nr hnr

/-- C4 witness: the validation outcomes at concrete records with an empty
title, an absent publish date, and both fields present. -/
theorem requiredFieldValidation_witness :
    validateArticle "p" articleNoTitleW = .error "No title for article: p" ∧
    validateArticle "p" articleNoDateW =
      .error "No publish date for article: p" ∧
    validateArticle "p" articleOkW = .ok () ∧
    validateFragment "p" fragmentNoTitleW = .error "No title for fragment: p" ∧
    validateFragment "p" fragmentNoDateW =
      .error "No publish date for fragment: p" ∧
    validateFragment "p" fragmentOkW = .ok () := by
  refine ⟨?_, ?_, ?_, ?_, ?_, ?_⟩
  · have h := (requiredFieldValidation.1 "p" articleNoTitleW).1 rfl
    rw [h]
    rfl
  · have h := (requiredFieldValidation.1 "p" articleNoDateW).2.1
      (by decide) rfl
    rw [h]
    rfl
  · exact (requiredFieldValidation.1 "p" articleOkW).2.2 (by decide) (by decide)
  · have h := (requiredFieldValidation.2.1 "p" fragmentNoTitleW).1 rfl
    rw [h]
    rfl
  · have h := (requiredFieldValidation.2.1 "p" fragmentNoDateW).2.1
      (by decide) rfl
    rw [h]
    rfl
  · exact (requiredFieldValidation.2.1 "p" fragmentOkW).2.2 (by decide)
      (by decide)

/-- C10: when a decoded record has both an empty title and an absent publish
timestamp, the reported error is the missing-title one: the title check runs
before the publish-date check, for articles and fragments alike. -/
theorem titleCheckedBeforePublishDate :
    (∀ (inPath : String) (a : Article), a.title = "" → a.publishedAt = none →
      validateArticle inPath a = .error ("No title for article: " ++ inPath)) ∧
    (∀ (inPath : String) (f : Fragment), f.title = "" → f.publishedAt = none →
      validateFragment inPath f =
        .error ("No title for fragment: " ++ inPath)) := by
  constructor
  · intro inPath a h1 _
    simp [validateArticle, h1]
  · intro inPath f h1 _
    simp [validateFragment, h1]

/-- C10 witness: the title error is the one reported for concrete records
with both required fields missing. -/
theorem titleCheckedBeforePublishDate_witness :
    validateArticle "p" articleBothMissingW = .error "No title for article: p" ∧
    validateFragment "p" fragmentBothMissingW =
      .error "No title for fragment: p" := by
  refine ⟨?_, ?_⟩
  · have h := titleCheckedBeforePublishDate.1 "p" articleBothMissingW rfl rfl
    rw [h]
    rfl
  · have h := titleCheckedBeforePublishDate.2 "p" fragmentBothMissingW rfl rfl
    rw [h]
    rfl

/-- C5: the build is the six stages in their fixed order; the stages entered
are always an initial segment of that order, a run with no error entered all
six and its final world is the sequential composition of all six stage
effects, and a run with an error entered exactly the stages up to and
including the first failing one, whose world is exactly what the completed
stages before the failure produced (no rollback) and whose error is the
failing stage's error. -/
theorem mainBuild_sixSequentialStages {W : Type}
    (exec : Stage → W → Except String W) (w : W) :
    ∃ k, k ≤ 6 ∧ (mainBuild exec w).executed = buildStages.take k ∧
      (((mainBuild exec w).err = none ∧ k = 6 ∧
        applyStages exec buildStages w = .ok (mainBuild exec w).world) ∨
       (∃ e, (mainBuild exec w).err = some e ∧ 1 ≤ k ∧
         applyStages exec (buildStages.take (k - 1)) w =
           .ok (mainBuild exec w).world ∧
         exec (buildStages.getD (k - 1) Stage.createTargetDirs)
           (mainBuild exec w).world = .error e)) := by
  cases h1 : exec .createTargetDirs w with
  | error e =>
      refine ⟨1, by omega, ?_, Or.inr ⟨e, ?_, by omega, ?_, ?_⟩⟩ <;>
        simp [mainBuild, runStageList, buildStages, applyStages, h1]
  | ok w1 =>
  cases h2 : exec .articlesStage w1 with
  | error e =>
      refine ⟨2, by omega, ?_, Or.inr ⟨e, ?_, by omega, ?_, ?_⟩⟩ <;>
        simp [mainBuild, runStageList, buildStages, applyStages, h1, h2]
  | ok w2 =>
  cases h3 : exec .fragmentsStage w2 with
  | error e =>
      refine ⟨3, by omega, ?_, Or.inr ⟨e, ?_, by omega, ?_, ?_⟩⟩ <;>
        simp [mainBuild, runStageList, buildStages, applyStages, h1, h2, h3]
  | ok w3 =>
  cases h4 : exec .runsStage w3 with
  | error e =>
      refine ⟨4, by omega, ?_, Or.inr ⟨e, ?_, by omega, ?_, ?_⟩⟩ <;>
        simp [mainBuild, runStageList, buildStages, applyStages, h1, h2, h3, h4]
  | ok w4 =>
  cases h5 : exec .stylesheetsStage w4 with
  | error e =>
      refine ⟨5, by omega, ?_, Or.inr ⟨e, ?_, by omega, ?_, ?_⟩⟩ <;>
        simp [mainBuild, runStageList, buildStages, applyStages,
          h1, h2, h3, h4, h5]
  | ok w5 =>
  cases h6 : exec .imageAssetsStage w5 with
  | error e =>
      refine ⟨6, by omega, ?_, Or.inr ⟨e, ?_, by omega, ?_, ?_⟩⟩ <;>
        simp [mainBuild, runStageList, buildStages, applyStages,
          h1, h2, h3, h4, h5, h6]
  | ok w6 =>
      refine ⟨6, by omega, ?_, Or.inl ⟨?_, rfl, ?_⟩⟩ <;>
        simp [mainBuild, runStageList, buildStages, applyStages,
          h1, h2, h3, h4, h5, h6]

/-- C6 (corrected): with no Black Swan database URL configured,
`compileRuns` performs zero database queries and still calls the view
renderer; but the activity list it passes is the *nil* slice (null) — the
Go variable is declared `var runs []*Run` and is never appended to in that
case — while the daily and yearly chart series are the explicitly
initialized empty, non-null, zero-length arrays. -/
theorem compileRuns_noDatabase_nilRunsEmptySeries (conf : Conf) (today : Int)
    (events : List RunEvent)
    (render : (String → Option LVal) → Except String Unit)
    (h : conf.blackSwanDatabaseURL = "") :
    (compileRuns conf today events render).1 = 0 ∧
    (compileRuns conf today events render).2 =
      render (getLocals conf "Runs"
        (runsLocals .nil (.slice []) (.slice []) (.slice []) (.slice []))) ∧
    getLocals conf "Runs"
      (runsLocals .nil (.slice []) (.slice []) (.slice []) (.slice []))
      "Runs" = some (.runList .nil) ∧
    GoSlice.isNull (GoSlice.nil : GoSlice Run) = true ∧
    GoSlice.length (GoSlice.nil : GoSlice Run) = 0 ∧
    getLocals conf "Runs"
      (runsLocals .nil (.slice []) (.slice []) (.slice []) (.slice []))
      "LastYearXDays" = some (.dayList (.slice [])) ∧
    getLocals conf "Runs"
      (runsLocals .nil (.slice []) (.slice []) (.slice []) (.slice []))
      "LastYearYDistances" = some (.distList (.slice [])) ∧
    getLocals conf "Runs"
      (runsLocals .nil (.slice []) (.slice []) (.slice []) (.slice []))
      "ByYearXYears" = some (.strList (.slice [])) ∧
    getLocals conf "Runs"
      (runsLocals .nil (.slice []) (.slice []) (.slice []) (.slice []))
      "ByYearYDistances" = some (.distList (.slice [])) ∧
    GoSlice.isNull (GoSlice.slice ([] : List Int)) = false := by
  refine ⟨?_, ?_, ?_, ?_, ?_, ?_, ?_, ?_, ?_, ?_⟩ <;>
    simp [compileRuns, h, getLocals, runsLocals, GoSlice.isNull,
      GoSlice.length]

/-- C6 counterexample: with no database URL, a renderer that distinguishes
a null activity list from an empty one observes null — the view receives
the nil slice, not a non-null zero-length list, refuting "non-null". -/
theorem compileRuns_noDatabase_runsListIsNull :
    (compileRuns confNoDbW 0 [] renderFailOnNullRunsW).2 =
      .error "null runs" ∧
    GoSlice.isNull (GoSlice.nil : GoSlice Run) = true ∧
    (GoSlice.nil : GoSlice Run) ≠ .slice [] := by
  refine ⟨by rfl, by rfl, by decide⟩

/-- C6 witness: the corrected no-database behaviour at a concrete
configuration with an always-succeeding renderer. -/
theorem compileRuns_noDatabase_nilRunsEmptySeries_witness :
    (compileRuns confNoDbW 0 [] renderOkW).1 = 0 ∧
    (compileRuns confNoDbW 0 [] renderOkW).2 =
      renderOkW (getLocals confNoDbW "Runs"
        (runsLocals .nil (.slice []) (.slice []) (.slice []) (.slice []))) ∧
    getLocals confNoDbW "Runs"
      (runsLocals .nil (.slice []) (.slice []) (.slice []) (.slice []))
      "Runs" = some (.runList .nil) ∧
    GoSlice.isNull (GoSlice.nil : GoSlice Run) = true ∧
    GoSlice.length (GoSlice.nil : GoSlice Run) = 0 ∧
    getLocals confNoDbW "Runs"
      (runsLocals .nil (.slice []) (.slice []) (.slice []) (.slice []))
      "LastYearXDays" = some (.dayList (.slice [])) ∧
    getLocals confNoDbW "Runs"
      (runsLocals .nil (.slice []) (.slice []) (.slice []) (.slice []))
      "LastYearYDistances" = some (.distList (.slice [])) ∧
    getLocals confNoDbW "Runs"
      (runsLocals .nil (.slice []) (.slice []) (.slice []) (.slice []))
      "ByYearXYears" = some (.strList (.slice [])) ∧
    getLocals confNoDbW "Runs"
      (runsLocals .nil (.slice []) (.slice []) (.slice []) (.slice []))
      "ByYearYDistances" = some (.distList (.slice [])) ∧
    GoSlice.isNull (GoSlice.slice ([] : List Int)) = false :=
  compileRuns_noDatabase_nilRunsEmptySeries confNoDbW 0 [] renderOkW rfl

theorem stylesheetLoop_ok (fs sass : String → Except String String)
    (content compiled : String → String) :
    ∀ (l : List String) (out : String),
      (∀ n ∈ l, fs n = .ok (content n)) →
      (∀ n ∈ l, strHasSuffix n ".sass" = true →
        sass (content n) = .ok (compiled n)) →
      stylesheetLoop fs sass l out =
        .ok (out ++ concatSections content compiled l) := by
  intro l
  induction l with
  | nil =>
      intro out _ _
      simp [stylesheetLoop, concatSections]
  | cons n rest ih =>
      intro out hfs hsass
      have hn : fs n = .ok (content n) := hfs n (by simp)
      rw [stylesheetLoop, hn]
      dsimp only
      have hrest := ih (out ++ "/* " ++ n ++ " */\n\n" ++
        (if strHasSuffix n ".sass" then compiled n else content n) ++ "\n\n")
        (fun m hm => hfs m (by simp [hm]))
        (fun m hm hms => hsass m (by simp [hm]) hms)
      by_cases hs : strHasSuffix n ".sass" = true
      · rw [if_pos hs, hsass n (by simp) hs]
        dsimp only
        rw [if_pos hs] at hrest
        rw [hrest]
        simp [concatSections, styleSection, hs, String.append_assoc]
      · have hs2 : strHasSuffix n ".sass" = false := by
          revert hs
          cases strHasSuffix n ".sass" <;> simp
        rw [if_neg (by simp [hs2])]
        rw [if_neg (by simp [hs2])] at hrest
        rw [hrest]
        simp [concatSections, styleSection, hs2, String.append_assoc]

/-- C7: the stylesheet bundle is produced by walking exactly the fixed,
explicitly ordered stylesheet list; whenever every listed file can be read
(`content`) and every `.sass` file compiles (`compiled`), the single output
is the concatenation, in list order, of one section per file, each section
beginning with a comment banner containing the exact source filename,
followed by the compiled content for `.sass` files and the verbatim content
otherwise. -/
theorem compileStylesheets_orderedBundle
    (fs sass : String → Except String String)
    (content compiled : String → String)
    (hfs : ∀ n ∈ stylesheets, fs n = .ok (content n))
    (hsass : ∀ n ∈ stylesheets, strHasSuffix n ".sass" = true →
      sass (content n) = .ok (compiled n)) :
    stylesheets =
      ["_reset.sass", "main.sass", "about.sass", "fragments.sass",
        "index.sass", "photos.sass", "quotes.sass", "reading.sass",
        "runs.sass", "signature.sass", "solarized-light.css", "tenets.sass",
        "twitter.sass"] ∧
    compileStylesheets fs sass = .ok (expectedBundle content compiled) := by
  refine ⟨rfl, ?_⟩
  have h := stylesheetLoop_ok fs sass content compiled stylesheets ""
    hfs hsass
  rw [compileStylesheets, h, expectedBundle]
  simp

/-- C7 witness: the bundle equation at a concrete filesystem and compiler
that always succeed. -/
theorem compileStylesheets_orderedBundle_witness :
    compileStylesheets fsW sassW = .ok (expectedBundle contentW compiledW) :=
  (compileStylesheets_orderedBundle fsW sassW contentW compiledW
    (fun _ _ => rfl) (fun _ _ _ => rfl)).2

/-- C8: the locals map built by `getLocals` always has a value for each of
the five baseline keys (page title, analytics identifier, release
identifier, body CSS class, viewport directive); a page-specific binding is
present unchanged in the result, also when its key collides with a baseline
key; and every key the page-specific map does not bind falls back to the
baseline. -/
theorem getLocals_baselineOverridden (conf : Conf) (title : String)
    (locals : String → Option LVal) :
    (∀ k ∈ baselineKeys, (getLocals conf title locals k).isSome = true) ∧
    (∀ k v, locals k = some v → getLocals conf title locals k = some v) ∧
    (∀ k, locals k = none →
      getLocals conf title locals k = defaultLocals conf title k) := by
  refine ⟨?_, ?_, ?_⟩
  · intro k hk
    cases hl : locals k with
    | some v => simp [getLocals, hl]
    | none =>
        fin_cases hk <;> simp [getLocals, hl, defaultLocals]
  · intro k v hv
    simp [getLocals, hv]
  · intro k hv
    simp [getLocals, hv]

/-- C8 witness: at a concrete configuration and page map, the colliding
`Title` key carries the page value, the non-colliding `Extra` key is added
unchanged, and the untouched baseline keys are present. -/
theorem getLocals_baselineOverridden_witness :
    getLocals confW "T" localsW "Title" = some (.str "Override") ∧
    getLocals confW "T" localsW "Extra" = some (.str "X") ∧
    getLocals confW "T" localsW "BodyClass" = some (.str "") ∧
    (getLocals confW "T" localsW "GoogleAnalyticsID").isSome = true := by
  refine ⟨?_, ?_, ?_, ?_⟩
  · exact (getLocals_baselineOverridden confW "T" localsW).2.1 "Title"
      (.str "Override") rfl
  · exact (getLocals_baselineOverridden confW "T" localsW).2.1 "Extra"
      (.str "X") rfl
  · have h := (getLocals_baselineOverridden confW "T" localsW).2.2
      "BodyClass" rfl
    rw [h]
    rfl
  · exact (getLocals_baselineOverridden confW "T" localsW).1
      "GoogleAnalyticsID" (by simp [baselineKeys])

/-- C9 (corrected): the daily run-distance series always has exactly 181
entries, the entry at index `i` being day `today - 180 + i` (so both
endpoints of the trailing 180-day window are included and no calendar day
is missing), and a day with no activity is reported as zero; but an entry's
distance is non-negative only provided every source activity distance is —
the query sums the raw stored distances and does not itself enforce
non-negativity. -/
theorem dailySeries_dense181 (today : Int) (events : List RunEvent) :
    (dailySeries today events).length = 181 ∧
    (∀ (i : Nat) (h : i < (dailySeries today events).length),
      ((dailySeries today events).get ⟨i, h⟩).1 = today - 180 + i) ∧
    ((∀ e ∈ events, 0 ≤ e.distance) →
      ∀ p ∈ dailySeries today events, 0 ≤ p.2) ∧
    (∀ p ∈ dailySeries today events,
      (∀ e ∈ events, e.day ≠ p.1) → p.2 = 0) := by
  refine ⟨?_, ?_, ?_, ?_⟩
  · simp only [dailySeries, lastYearDays, List.length_map, List.length_range]
  · intro i h
    simp only [dailySeries, lastYearDays, List.get_eq_getElem,
      List.getElem_map, List.getElem_range]
  · intro hnn p hp
    obtain ⟨d, _, rfl⟩ := List.mem_map.mp hp
    have : (0 : ℚ) ≤ daySum events d := by
      apply List.sum_nonneg
      intro x hx
      obtain ⟨e, he, rfl⟩ := List.mem_map.mp hx
      have he2 : e ∈ events := List.mem_of_mem_filter he
      have := hnn e he2
      positivity
    simpa using this
  · intro p hp hno
    obtain ⟨d, _, rfl⟩ := List.mem_map.mp hp
    have hfil : events.filter (fun e => e.day == d) = [] := by
      rw [List.filter_eq_nil_iff]
      intro e he
      simp only [beq_iff_eq]
      exact hno e he
    simp [daySum, hfil]

/-- C9 counterexample: a stored distance of -5000 meters on a day inside
the window produces the series entry (-5, in kilometers) for that day, so
"each entry's distance ≥ 0" does not hold unconditionally of the query. -/
theorem dailySeries_negativeSourceEntry :
    ((-3 : Int), (-5 : ℚ)) ∈ dailySeries 0 [runEventNegW] ∧
    ((-5 : ℚ) < 0) := by
  constructor
  · have hd : (-3 : Int) ∈ lastYearDays 0 := by
      rw [lastYearDays]
      refine List.mem_map.mpr ⟨177, List.mem_range.mpr (by norm_num),
        by norm_num⟩
    have hmem : ((-3 : Int), (0 : ℚ) + daySum [runEventNegW] (-3)) ∈
        dailySeries 0 [runEventNegW] := by
      rw [dailySeries]
      exact List.mem_map.mpr ⟨-3, hd, rfl⟩
    have heq : (0 : ℚ) + daySum [runEventNegW] (-3) = -5 := by
      norm_num [daySum, runEventNegW]
    rwa [heq] at hmem
  · norm_num

/-- C9 witness: the series properties at a concrete event list with one
non-negative 5 km run. -/
theorem dailySeries_dense181_witness :
    (dailySeries 0 [runEventW]).length = 181 ∧
    (∀ p ∈ dailySeries 0 [runEventW], 0 ≤ p.2) :=
  ⟨(dailySeries_dense181 0 [runEventW]).1,
    (dailySeries_dense181 0 [runEventW]).2.2.1 (by
      intro e he
      simp only [List.mem_singleton] at he
      subst he
      norm_num [runEventW])⟩

end Sorg
